import Mathlib

/-!
Verification of the NTLMSSP authentication and packet-integrity module
(`src/auth.c` of the cifssrv server core) against its specification.

The C code is shallowly embedded: byte buffers become `List Nat` or
functions `Nat → Nat` (each value taken mod 256 at every read), the
external cryptographic primitives (DES-based `E_P24`, MD4, HMAC-MD5,
HMAC-SHA256, SHA-512) and the NLS string conversions are abstract
function parameters collected in a `Crypto` record, fallible kernel
services (allocation, primitive-context allocation, per-step shash
return codes) are explicit parameters, and the mutable session object
becomes explicit state passing.
-/

/-! ## Size and protocol constants (from the surrounding headers and §6 of the spec) -/

/-- Server challenge size in bytes (key-size table of the spec). -/
def CIFS_CRYPTO_KEY_SIZE : Nat := 8

/-- NT password hash size in bytes. -/
def CIFS_ENCPWD_SIZE : Nat := 16

/-- NT hash size in bytes. -/
def CIFS_NTHASH_SIZE : Nat := 16

/-- First half of the legacy SMB1 session key, in bytes. -/
def CIFS_SMB1_SESSKEY_SIZE : Nat := 16

/-- Fixed NTLMv1 challenge-response size in bytes. -/
def CIFS_AUTH_RESP_SIZE : Nat := 24

/-- HMAC-MD5 digest size in bytes. -/
def CIFS_HMAC_MD5_HASH_SIZE : Nat := 16

/-- SMB2/3 session key material used for signing, in bytes. -/
def SMB2_NTLMV2_SESSKEY_SIZE : Nat := 16

/-- HMAC-SHA256 MAC size in bytes. -/
def SMB2_HMACSHA256_SIZE : Nat := 32

/-- Dialect identifier of SMB 3.1.1 (0x0311). -/
def SMB311_PROT_ID : Nat := 785

/-- Identifier of the SHA-512 preauth integrity hash algorithm (0x0001). -/
def SMB2_PREAUTH_INTEGRITY_SHA512 : Nat := 1

/-- NTLMSSP message type of a Challenge message. -/
def NtLmChallenge : Nat := 2

/-- Linux EINVAL errno; the code returns `-EINVAL` for malformed blobs
and failed comparisons. -/
def EINVAL : Int := 22

/-- Linux ENOMEM errno, returned on allocation failure. -/
def ENOMEM : Int := 12

/-- The literal 8-byte signature "NTLMSSP" with its terminating NUL,
compared by `memcmp(sig, "NTLMSSP", 8)`. -/
def NTLMSSP_SIGNATURE_BYTES : List Nat := [78, 84, 76, 77, 83, 83, 80, 0]

/-- Modelled from the spec: fixed size of the NEGOTIATE_MESSAGE wire
structure (8-byte signature, 4-byte message type, 4-byte negotiate
flags, two 8-byte security-buffer descriptors). The struct itself lives
in a header outside `src/`. -/
def sizeof_NEGOTIATE_MESSAGE : Nat := 32

/-- Modelled from the spec: fixed size of the AUTHENTICATE_MESSAGE wire
structure (8-byte signature, 4-byte message type, six 8-byte
security-buffer descriptors, 4-byte negotiate flags). The struct itself
lives in a header outside `src/`. -/
def sizeof_AUTHENTICATE_MESSAGE : Nat := 64

/-- Modelled from the spec: fixed size of the CHALLENGE_MESSAGE wire
structure (8-byte signature, 4-byte type, 8-byte target-name security
buffer, 4-byte flags, 8-byte challenge, 8-byte reserved, 8-byte
target-info security buffer). -/
def sizeof_CHALLENGE_MESSAGE : Nat := 48

/-- Modelled from the spec: target-info attribute type of the NetBIOS
computer name. -/
def NTLMSSP_AV_NB_COMPUTER_NAME : Nat := 1

/-- Modelled from the spec: target-info attribute type of the NetBIOS
domain name. -/
def NTLMSSP_AV_NB_DOMAIN_NAME : Nat := 2

/-- Modelled from the spec: target-info attribute type of the DNS
computer name. -/
def NTLMSSP_AV_DNS_COMPUTER_NAME : Nat := 3

/-- Modelled from the spec: target-info attribute type of the DNS
domain name. -/
def NTLMSSP_AV_DNS_DOMAIN_NAME : Nat := 4

/-- Modelled from the spec: NTLMSSP negotiate-flag bits advertised by
`build_ntlmssp_challenge_blob` (header outside `src/`). -/
def NTLMSSP_NEGOTIATE_UNICODE : Nat := 1

/-- Modelled from the spec: the client flag echoed by the server when set. -/
def NTLMSSP_REQUEST_TARGET : Nat := 4

/-- Modelled from the spec: NTLM negotiate-flag bit. -/
def NTLMSSP_NEGOTIATE_NTLM : Nat := 512

/-- Modelled from the spec: server-target-type negotiate-flag bit. -/
def NTLMSSP_TARGET_TYPE_SERVER : Nat := 131072

/-- Modelled from the spec: target-info negotiate-flag bit. -/
def NTLMSSP_NEGOTIATE_TARGET_INFO : Nat := 8388608

/-- Modelled from the spec: version negotiate-flag bit. -/
def NTLMSSP_NEGOTIATE_VERSION : Nat := 33554432

/-- Modelled from the spec: 128-bit negotiate-flag bit. -/
def NTLMSSP_NEGOTIATE_128 : Nat := 536870912

/-- Modelled from the spec: 56-bit negotiate-flag bit. -/
def NTLMSSP_NEGOTIATE_56 : Nat := 2147483648

/-! ## Byte-buffer primitives -/

/-- Little-endian 16-bit read at `off` from a raw memory function. -/
def readLE16 (mem : Nat → Nat) (off : Nat) : Nat :=
  mem off % 256 + 256 * (mem (off + 1) % 256)

/-- Little-endian 32-bit read at `off` from a raw memory function. -/
def readLE32 (mem : Nat → Nat) (off : Nat) : Nat :=
  readLE16 mem off + 65536 * readLE16 mem (off + 2)

/-- Big-endian 32-bit read at `off` (network byte order, `be32_to_cpu`). -/
def readBE32 (mem : Nat → Nat) (off : Nat) : Nat :=
  (mem off % 256) * 16777216 + (mem (off + 1) % 256) * 65536 +
    (mem (off + 2) % 256) * 256 + mem (off + 3) % 256

/-- The `n` bytes of raw memory starting at `off`. -/
def readBytes (mem : Nat → Nat) (off n : Nat) : List Nat :=
  (List.range n).map (fun k => mem (off + k) % 256)

/-- C `strncmp` starting at index `i` with `n` characters left: stops at
the first differing byte (returning the difference) or at a NUL byte in
both strings (returning 0). -/
def strncmpFrom (a b : List Nat) : Nat → Nat → Int
  | _, 0 => 0
  | i, n + 1 =>
    if a.getD i 0 = b.getD i 0 then
      if a.getD i 0 = 0 then 0 else strncmpFrom a b (i + 1) n
    else (a.getD i 0 : Int) - (b.getD i 0 : Int)

/-- C `strncmp` over the first `n` bytes of two byte lists. -/
def strncmp (a b : List Nat) (n : Nat) : Int := strncmpFrom a b 0 n

/-- C `memcmp` starting at index `i` with `n` bytes left: stops at the
first differing byte only. -/
def memcmpFrom (a b : List Nat) : Nat → Nat → Int
  | _, 0 => 0
  | i, n + 1 =>
    if a.getD i 0 = b.getD i 0 then memcmpFrom a b (i + 1) n
    else (a.getD i 0 : Int) - (b.getD i 0 : Int)

/-- C `memcmp` over the first `n` bytes of two byte lists. -/
def memcmpBytes (a b : List Nat) (n : Nat) : Int := memcmpFrom a b 0 n

/-! ## External primitives and kernel services

The cryptographic primitives and NLS conversions are external
collaborators of this module (spec §1, §6); they are abstract function
parameters here.  `kzalloc_ok` tells whether a scratch allocation of the
given size succeeds, and `hmacmd5_alloc` is the outcome of a first-use
HMAC-MD5 context allocation (`none` = success, `some rc` = failure with
return code `rc`). -/

structure Crypto where
  e_p24 : List Nat → List Nat → Except Int (List Nat)
  mdfour : List Nat → List Nat
  hmacmd5 : List Nat → List Nat → List Nat
  hmacsha256 : List Nat → List Nat → List Nat
  sha512 : List Nat → List Nat
  strtoUTF16 : String → List Nat
  uniStrupr : List Nat → List Nat
  strndup_from_utf16 : List Nat → String
  kzalloc_ok : Int → Bool
  hmacmd5_alloc : Option Int

/-! ## Session state

`struct cifssrv_sess` together with the parts of its
`struct tcp_server_info` that this module touches. -/

structure Sess where
  passkey : List Nat
  username : String
  client_flags : Nat
  cryptkey : List Nat
  sess_key : List Nat
  sequence_number : Nat
  hmacmd5_allocated : Bool
  dialect : Nat
  preauth_hash : List Nat
deriving DecidableEq

/-- Embeds `crypto_hmacmd5_alloc` (src/auth.c:92): idempotent first-use
allocation of the per-connection HMAC-MD5 context. -/
def crypto_hmacmd5_alloc (c : Crypto) (sess : Sess) : Int × Sess :=
  if sess.hmacmd5_allocated then (0, sess)
  else
    match c.hmacmd5_alloc with
    | none => (0, { sess with hmacmd5_allocated := true })
    | some rc => (rc, sess)

/-! ## Credential verifier -/

/-- The 21-byte padded key of `process_ntlm`: the 16-byte NT hash padded
with five zero bytes (`memset(p21, 0, 21); memcpy(p21, passkey, 16)`). -/
def ntlm_p21 (sess : Sess) : List Nat :=
  sess.passkey.take CIFS_NTHASH_SIZE ++ List.replicate 5 0

/-- Embeds `process_ntlm` (src/auth.c:253): computes the DES-based
24-byte response via the external `E_P24`, then writes the 40-byte
legacy session key (MD4 of the NT hash followed by the computed
response) and sets the sequence number to 1, and only then compares the
client-supplied response with `strncmp`. -/
def process_ntlm (c : Crypto) (sess : Sess) (pw_buf : List Nat) : Int × Sess :=
  match c.e_p24 (ntlm_p21 sess) sess.cryptkey with
  | .error rc => (rc, sess)
  | .ok key =>
    let sess1 := { sess with
      sess_key := (c.mdfour (sess.passkey.take CIFS_SMB1_SESSKEY_SIZE)).take CIFS_SMB1_SESSKEY_SIZE
        ++ key.take CIFS_AUTH_RESP_SIZE,
      sequence_number := 1 }
    ((if strncmp pw_buf key CIFS_AUTH_RESP_SIZE = 0 then 0 else -EINVAL), sess1)

/-- Embeds `calc_ntlmv2_hash` (src/auth.c:171): fails with -1 when the
per-connection HMAC-MD5 context is absent, otherwise HMAC-MD5 keyed by
the NT hash over the upper-cased UTF-16 user name followed by the
(not upper-cased) UTF-16 target name.  The two `kzalloc` scratch
allocations can fail with -ENOMEM. -/
def calc_ntlmv2_hash (c : Crypto) (sess : Sess) (dname : String) : Except Int (List Nat) :=
  if sess.hmacmd5_allocated = false then .error (-1)
  else if c.kzalloc_ok (2 + 2 * (sess.username.length : Int)) = false then .error (-ENOMEM)
  else if c.kzalloc_ok (2 + 2 * (dname.length : Int)) = false then .error (-ENOMEM)
  else
    let udata := if sess.username.length = 0 then [] else c.uniStrupr (c.strtoUTF16 sess.username)
    .ok ((c.hmacmd5 (sess.passkey.take CIFS_ENCPWD_SIZE)
      (udata ++ c.strtoUTF16 dname)).take CIFS_HMAC_MD5_HASH_SIZE)

/-- Embeds `compute_sess_key` (src/auth.c:130): writes the first 16
bytes of the session key with HMAC-MD5 keyed by `hash` over the first
16 bytes of `hmac`. -/
def compute_sess_key (c : Crypto) (sess : Sess) (hash hmac : List Nat) : Int × Sess :=
  let a := crypto_hmacmd5_alloc c sess
  if a.1 ≠ 0 then (a.1, a.2)
  else
    (0, { a.2 with sess_key :=
      (c.hmacmd5 (hash.take CIFS_HMAC_MD5_HASH_SIZE)
        (hmac.take SMB2_NTLMV2_SESSKEY_SIZE)).take CIFS_HMAC_MD5_HASH_SIZE
      ++ a.2.sess_key.drop CIFS_HMAC_MD5_HASH_SIZE })

/-- Embeds `process_ntlmv2` (src/auth.c:290): computes the NTLMv2 hash,
the expected response (HMAC-MD5 over server challenge and client blob),
derives the session key from the expected response via
`compute_sess_key`, and finally returns the `memcmp` of the
client-supplied response against the expected one.  `clientHash` is the
16-byte `ntlmv2_hash` field of the client response structure and `blob`
its variable-length tail of (signed) length `blen`. -/
def process_ntlmv2 (c : Crypto) (sess : Sess) (clientHash blob : List Nat)
    (blen : Int) (dname : String) : Int × Sess :=
  let a := crypto_hmacmd5_alloc c sess
  if a.1 ≠ 0 then (a.1, a.2)
  else
    match calc_ntlmv2_hash c a.2 dname with
    | .error rc => (rc, a.2)
    | .ok v2hash =>
      if c.kzalloc_ok ((CIFS_CRYPTO_KEY_SIZE : Int) + blen) = false then (-ENOMEM, a.2)
      else
        let construct := a.2.cryptkey.take CIFS_CRYPTO_KEY_SIZE ++ blob
        let rsp := (c.hmacmd5 (v2hash.take CIFS_HMAC_MD5_HASH_SIZE) construct).take CIFS_HMAC_MD5_HASH_SIZE
        let b := compute_sess_key c a.2 v2hash rsp
        if b.1 ≠ 0 then (b.1, b.2)
        else (memcmpBytes clientHash rsp CIFS_HMAC_MD5_HASH_SIZE, b.2)

/-- The NTLMv2 hash value computed by `calc_ntlmv2_hash` on its success
path, as a standalone formula. -/
def ntlmv2HashOf (c : Crypto) (sess : Sess) (dname : String) : List Nat :=
  (c.hmacmd5 (sess.passkey.take CIFS_ENCPWD_SIZE)
    (c.uniStrupr (c.strtoUTF16 sess.username) ++ c.strtoUTF16 dname)).take CIFS_HMAC_MD5_HASH_SIZE

/-- The expected NTLMv2 response computed by `process_ntlmv2` on its
success path, as a standalone formula. -/
def ntlmv2RspOf (c : Crypto) (sess : Sess) (dname : String) (blob : List Nat) : List Nat :=
  (c.hmacmd5 ((ntlmv2HashOf c sess dname).take CIFS_HMAC_MD5_HASH_SIZE)
    (sess.cryptkey.take CIFS_CRYPTO_KEY_SIZE ++ blob)).take CIFS_HMAC_MD5_HASH_SIZE

/-! ## Blob codec -/

/-- Embeds `decode_ntlmssp_negotiate_blob` (src/auth.c:418): size check,
signature check, then extraction of the client negotiate flags into the
session. -/
def decode_ntlmssp_negotiate_blob (sess : Sess) (mem : Nat → Nat) (blob_len : Nat) : Int × Sess :=
  if blob_len < sizeof_NEGOTIATE_MESSAGE then (-EINVAL, sess)
  else if readBytes mem 0 8 ≠ NTLMSSP_SIGNATURE_BYTES then (-EINVAL, sess)
  else (0, { sess with client_flags := readLE32 mem 12 })

/-- Embeds `decode_ntlmssp_authenticate_blob` (src/auth.c:373): size and
signature checks, then dispatch on the NT-challenge-response
security-buffer length (offset 20, buffer offset at offset 24 of the
message): exactly 24 selects NTLMv1, anything else selects NTLMv2 with
blob length `Length - 16` (a signed value, computed without checking
`Length >= 16`) and the domain name decoded from its own security
buffer (length at offset 28, buffer offset at offset 32).  None of the
security-buffer references is checked against `blob_len`. -/
def decode_ntlmssp_authenticate_blob (c : Crypto) (sess : Sess) (mem : Nat → Nat)
    (blob_len : Nat) : Int × Sess :=
  if blob_len < sizeof_AUTHENTICATE_MESSAGE then (-EINVAL, sess)
  else if readBytes mem 0 8 ≠ NTLMSSP_SIGNATURE_BYTES then (-EINVAL, sess)
  else if readLE16 mem 20 = CIFS_AUTH_RESP_SIZE then
    process_ntlm c sess (readBytes mem (readLE32 mem 24) CIFS_AUTH_RESP_SIZE)
  else
    process_ntlmv2 c sess
      (readBytes mem (readLE32 mem 24) CIFS_HMAC_MD5_HASH_SIZE)
      (readBytes mem (readLE32 mem 24 + 16) (((readLE16 mem 20 : Int) - (CIFS_ENCPWD_SIZE : Int)).toNat))
      ((readLE16 mem 20 : Int) - (CIFS_ENCPWD_SIZE : Int))
      (c.strndup_from_utf16 (readBytes mem (readLE32 mem 32) (readLE16 mem 28)))

/-- A target-info attribute: `{type:u16, length:u16, content}`. -/
structure TargetInfo where
  ty : Nat
  len : Nat
  content : List Nat
deriving DecidableEq

/-- The target-info loop of `build_ntlmssp_challenge_blob`
(src/auth.c:489): starting at attribute type `ty` and running for the
given number of iterations, emit one attribute carrying the encoded
name per type value and accumulate `4 + len` into the 16-bit
TargetInfoArray length. -/
def tiLoop (name : List Nat) (len : Nat) : Nat → Nat → List TargetInfo × Nat
  | _, 0 => ([], 0)
  | ty, n + 1 =>
    let r := tiLoop name len (ty + 1) n
    (⟨ty, len % 65536, name⟩ :: r.1, ((4 + len) + r.2) % 65536)

/-- The decoded form of an encoded CHALLENGE_MESSAGE. -/
structure CHALLENGE_MESSAGE where
  Signature : List Nat
  MessageType : Nat
  NegotiateFlags : Nat
  TargetNameLen : Nat
  TargetNameMaxLen : Nat
  TargetNameOffset : Nat
  Challenge : List Nat
  TargetInfoLen : Nat
  TargetInfoMaxLen : Nat
  TargetInfoOffset : Nat
  TargetName : List Nat
  TargetInfoList : List TargetInfo
deriving DecidableEq

/-- Embeds `build_ntlmssp_challenge_blob` (src/auth.c:443): fixed
negotiate flags (echoing the client REQUEST_TARGET bit), UTF-16 server
name as target name, a fresh 8-byte random challenge recorded on the
session, and a target-info list with one attribute per type from
NetBIOS computer name to DNS domain name followed by a zero terminator.
Returns the message, the total blob length, and the updated session. -/
def build_ntlmssp_challenge_blob (c : Crypto) (sess : Sess) (serverName : String)
    (rand : List Nat) : CHALLENGE_MESSAGE × Nat × Sess :=
  let flags0 := NTLMSSP_NEGOTIATE_UNICODE ||| NTLMSSP_NEGOTIATE_NTLM |||
    NTLMSSP_TARGET_TYPE_SERVER ||| NTLMSSP_NEGOTIATE_TARGET_INFO |||
    NTLMSSP_NEGOTIATE_128 ||| NTLMSSP_NEGOTIATE_56 ||| NTLMSSP_NEGOTIATE_VERSION
  let flags := if sess.client_flags &&& NTLMSSP_REQUEST_TARGET ≠ 0
    then flags0 ||| NTLMSSP_REQUEST_TARGET else flags0
  let name := c.strtoUTF16 serverName
  let len := name.length
  let sess1 := { sess with cryptkey := rand.take CIFS_CRYPTO_KEY_SIZE }
  let ti := tiLoop name len NTLMSSP_AV_NB_COMPUTER_NAME
    (NTLMSSP_AV_DNS_DOMAIN_NAME + 1 - NTLMSSP_AV_NB_COMPUTER_NAME)
  let tiLen := (ti.2 + 4) % 65536
  let blob_len := (sizeof_CHALLENGE_MESSAGE + len) % 65536 + tiLen
  ({ Signature := NTLMSSP_SIGNATURE_BYTES
   , MessageType := NtLmChallenge
   , NegotiateFlags := flags
   , TargetNameLen := len % 65536
   , TargetNameMaxLen := len % 65536
   , TargetNameOffset := sizeof_CHALLENGE_MESSAGE
   , Challenge := rand.take CIFS_CRYPTO_KEY_SIZE
   , TargetInfoLen := tiLen
   , TargetInfoMaxLen := tiLen
   , TargetInfoOffset := sizeof_CHALLENGE_MESSAGE + len
   , TargetName := name
   , TargetInfoList := ti.1 ++ [⟨0, 0, []⟩] }, blob_len, sess1)

/-! ## Key deriver -/

/-- Return codes of the individual primitive steps of
`compute_smb3xsigningkey`, in the order the source performs them; 0
means the step succeeds. -/
structure KdfSteps where
  rc_alloc_hmacsha256 : Int
  rc_alloc_cmac : Int
  rc_setkey : Int
  rc_init : Int
  rc_update_i : Int
  rc_update_label : Int
  rc_update_zero : Int
  rc_update_context : Int
  rc_update_L : Int
  rc_final : Int

/-- All steps succeed. -/
def kdfOk : KdfSteps := ⟨0, 0, 0, 0, 0, 0, 0, 0, 0, 0⟩

/-- Embeds `compute_smb3xsigningkey` (src/auth.c:749): the output key is
zeroed on entry; every failing step returns with the key still zeroed;
on success the key is the leftmost `key_size` bytes of HMAC-SHA256
keyed by the 16-byte session key over the big-endian counter 1, the
NUL-terminated label, one zero byte, the dialect-dependent context and
the big-endian length 128. -/
def compute_smb3xsigningkey (c : Crypto) (st : KdfSteps) (sess : Sess)
    (key_size : Nat) : Int × List Nat :=
  let zeroKey := List.replicate key_size 0
  if st.rc_alloc_hmacsha256 ≠ 0 then (st.rc_alloc_hmacsha256, zeroKey)
  else if st.rc_alloc_cmac ≠ 0 then (st.rc_alloc_cmac, zeroKey)
  else if st.rc_setkey ≠ 0 then (st.rc_setkey, zeroKey)
  else if st.rc_init ≠ 0 then (st.rc_init, zeroKey)
  else if st.rc_update_i ≠ 0 then (st.rc_update_i, zeroKey)
  else if st.rc_update_label ≠ 0 then (st.rc_update_label, zeroKey)
  else if st.rc_update_zero ≠ 0 then (st.rc_update_zero, zeroKey)
  else if st.rc_update_context ≠ 0 then (st.rc_update_context, zeroKey)
  else if st.rc_update_L ≠ 0 then (st.rc_update_L, zeroKey)
  else if st.rc_final ≠ 0 then (st.rc_final, zeroKey)
  else
    let d1 : List Nat := [0, 0, 0, 1]
    let d2 := d1 ++ (if sess.dialect = SMB311_PROT_ID
      then [83, 77, 66, 83, 105, 103, 110, 105, 110, 103, 75, 101, 121, 0]
      else [83, 77, 66, 50, 65, 69, 83, 67, 77, 65, 67, 0])
    let d3 := d2 ++ [0]
    let d4 := d3 ++ (if sess.dialect = SMB311_PROT_ID
      then sess.preauth_hash.take 64
      else [83, 109, 98, 83, 105, 103, 110, 0])
    let d5 := d4 ++ [0, 0, 0, 128]
    (0, (c.hmacsha256 (sess.sess_key.take SMB2_NTLMV2_SESSKEY_SIZE) d5).take key_size)

/-! ## Preauth integrity hasher -/

/-- Embeds `calc_preauth_integrity_hash` (src/auth.c:846): for the
SHA-512 hash id, SHA-512 over the previous 64-byte running hash
followed by the message bytes starting at the ProtocolId field (byte
offset 4 of the received PDU) for the big-endian length declared in the
first four bytes; any other hash id fails with -1, and a failed context
allocation propagates its return code. -/
def calc_preauth_integrity_hash (c : Crypto) (alloc_sha512 : Option Int)
    (preauth : List Nat) (hash_id : Nat) (buf : Nat → Nat) : Except Int (List Nat) :=
  let msg_size := readBE32 buf 0
  if hash_id = SMB2_PREAUTH_INTEGRITY_SHA512 then
    match alloc_sha512 with
    | some rc => .error rc
    | none => .ok ((c.sha512 (preauth.take 64 ++ readBytes buf 4 msg_size)).take 64)
  else .error (-1)

/-! ## Concrete instances used by closed theorems -/

/-- A concrete primitive environment. -/
def cOne : Crypto :=
  { e_p24 := fun _ _ => .ok (List.replicate 24 1)
  , mdfour := fun _ => List.replicate 16 2
  , hmacmd5 := fun _ _ => List.replicate 16 3
  , hmacsha256 := fun _ _ => List.replicate 32 4
  , sha512 := fun _ => List.replicate 64 5
  , strtoUTF16 := fun s => List.replicate (2 * s.length) 6
  , uniStrupr := fun l => l
  , strndup_from_utf16 := fun _ => ""
  , kzalloc_ok := fun _ => true
  , hmacmd5_alloc := none }

/-- A primitive environment whose DES step yields a response starting
with a zero byte. -/
def cFour : Crypto := { cOne with e_p24 := fun _ _ => .ok (0 :: List.replicate 23 5) }

/-- A primitive environment whose DES step yields the all-9 response. -/
def cTwo : Crypto := { cOne with e_p24 := fun _ _ => .ok (List.replicate 24 9) }

/-- A concrete session. -/
def sessOne : Sess :=
  { passkey := List.replicate 16 3
  , username := "u"
  , client_flags := 0
  , cryptkey := List.replicate 8 4
  , sess_key := List.replicate 40 0
  , sequence_number := 0
  , hmacmd5_allocated := true
  , dialect := SMB311_PROT_ID
  , preauth_hash := List.replicate 64 0 }

/-- Fixed header of a 64-byte authenticate message whose
NT-challenge-response buffer has Length 24 and BufferOffset 100,
pointing past the end of the message. -/
def authBaseC2 : List Nat :=
  [78, 84, 76, 77, 83, 83, 80, 0, 3, 0, 0, 0,
   0, 0, 0, 0, 0, 0, 0, 0,
   24, 0, 24, 0, 100, 0, 0, 0] ++ List.replicate 36 0

/-- Memory holding `authBaseC2` with every byte beyond the 64-byte
message equal to 9. -/
def memOOB : Nat → Nat := fun i => if i < 64 then authBaseC2.getD i 0 else 9

/-- Memory holding `authBaseC2` with every byte beyond the 64-byte
message equal to 5. -/
def memOOB2 : Nat → Nat := fun i => if i < 64 then authBaseC2.getD i 0 else 5

/-- A 64-byte authenticate message whose NT-challenge-response buffer
has Length 10 (neither 24 nor at least 16). -/
def authBaseC3 : List Nat :=
  [78, 84, 76, 77, 83, 83, 80, 0, 3, 0, 0, 0,
   0, 0, 0, 0, 0, 0, 0, 0,
   10, 0, 10, 0, 64, 0, 0, 0,
   0, 0, 0, 0, 72, 0, 0, 0] ++ List.replicate 28 0

/-- Memory holding `authBaseC3`, zero elsewhere. -/
def memC3 : Nat → Nat := fun i => authBaseC3.getD i 0

/-- All-zero memory: its first 8 bytes are not the NTLMSSP signature. -/
def memZero : Nat → Nat := fun _ => 0

/-- Key-derivation step outcomes where the context update step fails. -/
def stBad : KdfSteps := { kdfOk with rc_update_context := -5 }

/-- Concrete random bytes for challenge generation. -/
def randOne : List Nat := [7, 7, 7, 7, 7, 7, 7, 7]

/-! ## Claims -/

/-- C5: for every input buffer, if it is shorter than the fixed
negotiate-message (respectively authenticate-message) size, or its
first 8 bytes differ from the literal NTLMSSP signature, the decoder
returns the malformed-blob error (-EINVAL) and performs no further
processing: no field is extracted, no verifier runs, and the session is
returned unchanged. -/
theorem decode_short_or_badsig_malformed (c : Crypto) (sess : Sess) (mem : Nat → Nat)
    (blob_len : Nat) :
    ((blob_len < sizeof_NEGOTIATE_MESSAGE ∨ readBytes mem 0 8 ≠ NTLMSSP_SIGNATURE_BYTES) →
       decode_ntlmssp_negotiate_blob sess mem blob_len = (-EINVAL, sess)) ∧
    ((blob_len < sizeof_AUTHENTICATE_MESSAGE ∨ readBytes mem 0 8 ≠ NTLMSSP_SIGNATURE_BYTES) →
       decode_ntlmssp_authenticate_blob c sess mem blob_len = (-EINVAL, sess)) := by
  constructor
  · rintro (h | h)
    · simp [decode_ntlmssp_negotiate_blob, h]
    · by_cases hb : blob_len < sizeof_NEGOTIATE_MESSAGE <;>
        simp [decode_ntlmssp_negotiate_blob, hb, h]
  · rintro (h | h)
    · simp [decode_ntlmssp_authenticate_blob, h]
    · by_cases hb : blob_len < sizeof_AUTHENTICATE_MESSAGE <;>
        simp [decode_ntlmssp_authenticate_blob, hb, h]

/-- C5 witness: a 100-byte all-zero buffer passes the size checks but
fails the signature check in both decoders. -/
theorem decode_short_or_badsig_malformed_witness :
    decode_ntlmssp_negotiate_blob sessOne memZero 100 = (-EINVAL, sessOne) ∧
    decode_ntlmssp_authenticate_blob cOne sessOne memZero 100 = (-EINVAL, sessOne) :=
  ⟨(decode_short_or_badsig_malformed cOne sessOne memZero 100).1 (.inr (by decide)),
   (decode_short_or_badsig_malformed cOne sessOne memZero 100).2 (.inr (by decide))⟩

/-- C3: for every well-formed authenticate message (size and signature
checks passed), an NT-challenge-response length of exactly 24 routes to
the NTLMv1 verifier with the 24 referenced bytes, and any other length
routes to the NTLMv2 verifier with blob length `Length - 16`, a signed
subtraction performed without any check that the length is at least
16. -/
theorem decode_authenticate_dispatch (c : Crypto) (sess : Sess) (mem : Nat → Nat)
    (blob_len : Nat)
    (hlen : sizeof_AUTHENTICATE_MESSAGE ≤ blob_len)
    (hsig : readBytes mem 0 8 = NTLMSSP_SIGNATURE_BYTES) :
    (readLE16 mem 20 = CIFS_AUTH_RESP_SIZE →
       decode_ntlmssp_authenticate_blob c sess mem blob_len =
         process_ntlm c sess (readBytes mem (readLE32 mem 24) CIFS_AUTH_RESP_SIZE)) ∧
    (readLE16 mem 20 ≠ CIFS_AUTH_RESP_SIZE →
       decode_ntlmssp_authenticate_blob c sess mem blob_len =
         process_ntlmv2 c sess
           (readBytes mem (readLE32 mem 24) CIFS_HMAC_MD5_HASH_SIZE)
           (readBytes mem (readLE32 mem 24 + 16) (((readLE16 mem 20 : Int) - (CIFS_ENCPWD_SIZE : Int)).toNat))
           ((readLE16 mem 20 : Int) - (CIFS_ENCPWD_SIZE : Int))
           (c.strndup_from_utf16 (readBytes mem (readLE32 mem 32) (readLE16 mem 28)))) := by
  have hnl : ¬ blob_len < sizeof_AUTHENTICATE_MESSAGE := by omega
  constructor <;> intro h <;> simp [decode_ntlmssp_authenticate_blob, hnl, hsig, h]

/-- C3 witness: a message with NT-challenge-response length 10 takes
the NTLMv2 path, and the blob length handed to it is the negative value
10 - 16 = -6. -/
theorem decode_authenticate_dispatch_witness :
    decode_ntlmssp_authenticate_blob cOne sessOne memC3 64 =
      process_ntlmv2 cOne sessOne
        (readBytes memC3 (readLE32 memC3 24) CIFS_HMAC_MD5_HASH_SIZE)
        (readBytes memC3 (readLE32 memC3 24 + 16) (((readLE16 memC3 20 : Int) - (CIFS_ENCPWD_SIZE : Int)).toNat))
        ((readLE16 memC3 20 : Int) - (CIFS_ENCPWD_SIZE : Int))
        (cOne.strndup_from_utf16 (readBytes memC3 (readLE32 memC3 32) (readLE16 memC3 28))) ∧
    (readLE16 memC3 20 : Int) - (CIFS_ENCPWD_SIZE : Int) = -6 :=
  ⟨(decode_authenticate_dispatch cOne sessOne memC3 64 (by decide) (by decide)).2 (by decide),
   by decide⟩

/-- C2: the decoder does not validate security-buffer references
against the message bounds.  On a concrete 64-byte authenticate message
whose NT-challenge-response buffer claims offset 100 and length 24
(124 > 64), the decoder does not reject the message as malformed; it
dereferences the out-of-bounds bytes, so two memories identical on the
whole 64-byte message but different beyond it produce different
results. -/
theorem decode_authenticate_oob_dereferenced :
    (∀ i, i < 64 → memOOB i = memOOB2 i) ∧
    64 < readLE32 memOOB 24 + readLE16 memOOB 20 ∧
    decode_ntlmssp_authenticate_blob cTwo sessOne memOOB 64 ≠ (-EINVAL, sessOne) ∧
    decode_ntlmssp_authenticate_blob cTwo sessOne memOOB 64 ≠
      decode_ntlmssp_authenticate_blob cTwo sessOne memOOB2 64 := by
  decide

/-- C4: there exist a credential with its DES primitive outcome, a
server challenge and two distinct 24-byte client responses that the
NTLMv1 verifier both accepts, because its `strncmp` comparison stops at
the first zero byte of the computed response and ignores every byte
after it. -/
theorem ntlmv1_strncmp_accepts_two_responses :
    ∃ (c : Crypto) (sess : Sess) (pw1 pw2 : List Nat),
      pw1 ≠ pw2 ∧ pw1.length = CIFS_AUTH_RESP_SIZE ∧ pw2.length = CIFS_AUTH_RESP_SIZE ∧
      (process_ntlm c sess pw1).1 = 0 ∧ (process_ntlm c sess pw2).1 = 0 :=
  ⟨cFour, sessOne, 0 :: List.replicate 23 7, 0 :: List.replicate 23 8,
    by decide, by decide, by decide, by decide, by decide⟩

/-- C7: the NTLMv2 hash is HMAC-MD5 keyed by the NT hash of the
credential over the upper-cased UTF-16 account name followed by the
(non-upper-cased) UTF-16 target name; when the per-connection HMAC-MD5
context does not exist the operation fails with -1 before computing
anything. -/
theorem calc_ntlmv2_hash_spec (c : Crypto) (sess : Sess) (dname : String)
    (h0 : sess.username.length = 0 → c.strtoUTF16 sess.username = [])
    (h1 : c.uniStrupr [] = []) :
    (sess.hmacmd5_allocated = false → calc_ntlmv2_hash c sess dname = .error (-1)) ∧
    (sess.hmacmd5_allocated = true →
      c.kzalloc_ok (2 + 2 * (sess.username.length : Int)) = true →
      c.kzalloc_ok (2 + 2 * (dname.length : Int)) = true →
      calc_ntlmv2_hash c sess dname = .ok (ntlmv2HashOf c sess dname)) := by
  constructor
  · intro h
    simp [calc_ntlmv2_hash, h]
  · intro ha k1 k2
    by_cases hU : sess.username.length = 0
    · have k1a : c.kzalloc_ok 2 = true := by simpa [hU] using k1
      simp [calc_ntlmv2_hash, ha, k1a, k2, hU, ntlmv2HashOf, h0 hU, h1]
    · simp [calc_ntlmv2_hash, ha, k1, k2, hU, ntlmv2HashOf]

/-- C7 witness: on a concrete environment and session the hash equals
the formula. -/
theorem calc_ntlmv2_hash_spec_witness :
    calc_ntlmv2_hash cOne sessOne "DOM" = .ok (ntlmv2HashOf cOne sessOne "DOM") :=
  (calc_ntlmv2_hash_spec cOne sessOne "DOM" (by decide) (by decide)).2
    (by decide) (by decide) (by decide)

/-- C1 counterexample: a concrete NTLMv1 verification in which the
comparison fails (the verifier returns a nonzero code) and yet both the
session key and the sequence number have been changed from their values
before the call. -/
theorem ntlm_failure_state_committed_cex :
    (process_ntlm cOne sessOne (List.replicate 24 0)).1 ≠ 0 ∧
    (process_ntlm cOne sessOne (List.replicate 24 0)).2.sess_key ≠ sessOne.sess_key ∧
    (process_ntlm cOne sessOne (List.replicate 24 0)).2.sequence_number ≠ sessOne.sequence_number := by
  decide

/-- C1 amended: verification failures still return an error code, but
session state is committed before the comparison rather than only on
success.  When the DES primitive succeeds, NTLMv1 overwrites the
session key with MD4(NT hash) followed by the computed response and
sets the sequence number to 1 whatever the comparison result; when
every step up to the comparison succeeds, NTLMv2 overwrites the session
key via `compute_sess_key` and then returns the comparison result. -/
theorem verifier_state_commit_before_compare
    (c : Crypto) (sess : Sess) (pw clientHash blob k : List Nat) (blen : Int) (dname : String)
    (halloc : sess.hmacmd5_allocated = true)
    (hk : c.e_p24 (ntlm_p21 sess) sess.cryptkey = Except.ok k)
    (hz1 : c.kzalloc_ok (2 + 2 * (sess.username.length : Int)) = true)
    (hz2 : c.kzalloc_ok (2 + 2 * (dname.length : Int)) = true)
    (hz3 : c.kzalloc_ok ((CIFS_CRYPTO_KEY_SIZE : Int) + blen) = true)
    (h0 : sess.username.length = 0 → c.strtoUTF16 sess.username = [])
    (h1 : c.uniStrupr [] = []) :
    process_ntlm c sess pw =
      ((if strncmp pw k CIFS_AUTH_RESP_SIZE = 0 then 0 else -EINVAL),
       { sess with
          sess_key := (c.mdfour (sess.passkey.take CIFS_SMB1_SESSKEY_SIZE)).take CIFS_SMB1_SESSKEY_SIZE
            ++ k.take CIFS_AUTH_RESP_SIZE,
          sequence_number := 1 }) ∧
    process_ntlmv2 c sess clientHash blob blen dname =
      (memcmpBytes clientHash (ntlmv2RspOf c sess dname blob) CIFS_HMAC_MD5_HASH_SIZE,
       { sess with sess_key :=
          (c.hmacmd5 ((ntlmv2HashOf c sess dname).take CIFS_HMAC_MD5_HASH_SIZE)
            ((ntlmv2RspOf c sess dname blob).take SMB2_NTLMV2_SESSKEY_SIZE)).take CIFS_HMAC_MD5_HASH_SIZE
          ++ sess.sess_key.drop CIFS_HMAC_MD5_HASH_SIZE }) := by
  have hA : crypto_hmacmd5_alloc c sess = (0, sess) := by
    simp [crypto_hmacmd5_alloc, halloc]
  have hCalc : calc_ntlmv2_hash c sess dname = .ok (ntlmv2HashOf c sess dname) := by
    by_cases hU : sess.username.length = 0
    · have hz1a : c.kzalloc_ok 2 = true := by simpa [hU] using hz1
      simp [calc_ntlmv2_hash, halloc, hz1a, hz2, hU, ntlmv2HashOf, h0 hU, h1]
    · simp [calc_ntlmv2_hash, halloc, hz1, hz2, hU, ntlmv2HashOf]
  constructor
  · simp [process_ntlm, hk]
  · simp [process_ntlmv2, hA, hCalc, hz3, compute_sess_key, ntlmv2RspOf]

/-- C1 amended witness: the NTLMv1 equation at a concrete input where
the comparison fails; the returned state carries the freshly derived
key and sequence number 1. -/
theorem verifier_state_commit_before_compare_witness :
    process_ntlm cOne sessOne (List.replicate 24 0) =
      ((if strncmp (List.replicate 24 0) (List.replicate 24 1) CIFS_AUTH_RESP_SIZE = 0
          then 0 else -EINVAL),
       { sessOne with
          sess_key := (cOne.mdfour (sessOne.passkey.take CIFS_SMB1_SESSKEY_SIZE)).take CIFS_SMB1_SESSKEY_SIZE
            ++ (List.replicate 24 1).take CIFS_AUTH_RESP_SIZE,
          sequence_number := 1 }) :=
  (verifier_state_commit_before_compare cOne sessOne (List.replicate 24 0) [] []
    (List.replicate 24 1) 0 "d" (by decide) rfl (by decide) (by decide)
    (by decide) (by decide) (by decide)).1

/-- C6: with every primitive step succeeding, the SMB3 signing-key
derivation is HMAC-SHA256 keyed by the 16-byte session key over, in
order, the 4-byte big-endian counter 1, the NUL-terminated label
("SMBSigningKey" for dialect 3.1.1, "SMB2AESCMAC" otherwise), one zero
separator byte, the context (the 64-byte preauth hash for 3.1.1, the
NUL-terminated literal "SmbSign" otherwise) and the 4-byte big-endian
value 128; the derived key is the leftmost `key_size` bytes of the
MAC. -/
theorem smb3signingkey_kdf_formula (c : Crypto) (sess : Sess) (key_size : Nat) :
    compute_smb3xsigningkey c kdfOk sess key_size =
      (0, (c.hmacsha256 (sess.sess_key.take SMB2_NTLMV2_SESSKEY_SIZE)
        ([0, 0, 0, 1]
          ++ (if sess.dialect = SMB311_PROT_ID
              then [83, 77, 66, 83, 105, 103, 110, 105, 110, 103, 75, 101, 121, 0]
              else [83, 77, 66, 50, 65, 69, 83, 67, 77, 65, 67, 0])
          ++ [0]
          ++ (if sess.dialect = SMB311_PROT_ID
              then sess.preauth_hash.take 64
              else [83, 109, 98, 83, 105, 103, 110, 0])
          ++ [0, 0, 0, 128])).take key_size) := by
  simp [compute_smb3xsigningkey, kdfOk, List.append_assoc]

/-- The KDF either stops at the first failing step with the key still
all-zero, or runs to completion producing the MAC-derived key. -/
theorem compute_smb3xsigningkey_shape (c : Crypto) (st : KdfSteps) (sess : Sess) (ks : Nat) :
    (∃ rc, rc ≠ 0 ∧ compute_smb3xsigningkey c st sess ks = (rc, List.replicate ks 0)) ∨
    compute_smb3xsigningkey c st sess ks =
      (0, (c.hmacsha256 (sess.sess_key.take SMB2_NTLMV2_SESSKEY_SIZE)
        ([0, 0, 0, 1]
          ++ (if sess.dialect = SMB311_PROT_ID
              then [83, 77, 66, 83, 105, 103, 110, 105, 110, 103, 75, 101, 121, 0]
              else [83, 77, 66, 50, 65, 69, 83, 67, 77, 65, 67, 0])
          ++ [0]
          ++ (if sess.dialect = SMB311_PROT_ID
              then sess.preauth_hash.take 64
              else [83, 109, 98, 83, 105, 103, 110, 0])
          ++ [0, 0, 0, 128])).take ks) := by
  rcases ne_or_eq st.rc_alloc_hmacsha256 0 with h1 | h1
  · exact Or.inl ⟨_, h1, by simp [compute_smb3xsigningkey, h1]⟩
  rcases ne_or_eq st.rc_alloc_cmac 0 with h2 | h2
  · exact Or.inl ⟨_, h2, by simp [compute_smb3xsigningkey, h1, h2]⟩
  rcases ne_or_eq st.rc_setkey 0 with h3 | h3
  · exact Or.inl ⟨_, h3, by simp [compute_smb3xsigningkey, h1, h2, h3]⟩
  rcases ne_or_eq st.rc_init 0 with h4 | h4
  · exact Or.inl ⟨_, h4, by simp [compute_smb3xsigningkey, h1, h2, h3, h4]⟩
  rcases ne_or_eq st.rc_update_i 0 with h5 | h5
  · exact Or.inl ⟨_, h5, by simp [compute_smb3xsigningkey, h1, h2, h3, h4, h5]⟩
  rcases ne_or_eq st.rc_update_label 0 with h6 | h6
  · exact Or.inl ⟨_, h6, by simp [compute_smb3xsigningkey, h1, h2, h3, h4, h5, h6]⟩
  rcases ne_or_eq st.rc_update_zero 0 with h7 | h7
  · exact Or.inl ⟨_, h7, by simp [compute_smb3xsigningkey, h1, h2, h3, h4, h5, h6, h7]⟩
  rcases ne_or_eq st.rc_update_context 0 with h8 | h8
  · exact Or.inl ⟨_, h8, by simp [compute_smb3xsigningkey, h1, h2, h3, h4, h5, h6, h7, h8]⟩
  rcases ne_or_eq st.rc_update_L 0 with h9 | h9
  · exact Or.inl ⟨_, h9, by simp [compute_smb3xsigningkey, h1, h2, h3, h4, h5, h6, h7, h8, h9]⟩
  rcases ne_or_eq st.rc_final 0 with h10 | h10
  · exact Or.inl ⟨_, h10, by simp [compute_smb3xsigningkey, h1, h2, h3, h4, h5, h6, h7, h8, h9, h10]⟩
  exact Or.inr (by
    simp [compute_smb3xsigningkey, h1, h2, h3, h4, h5, h6, h7, h8, h9, h10, List.append_assoc])

/-- C10: the output of the SMB3 signing-key derivation is never
partially written: it is zeroed at entry and every failing step leaves
it all zeroes, while on success all `key_size` bytes hold the derived
value (the leftmost bytes of the 32-byte MAC). -/
theorem smb3signingkey_all_or_nothing (c : Crypto) (st : KdfSteps) (sess : Sess)
    (key_size : Nat)
    (hks : key_size ≤ SMB2_HMACSHA256_SIZE)
    (hlen : ∀ kk dd, (c.hmacsha256 kk dd).length = SMB2_HMACSHA256_SIZE) :
    ((compute_smb3xsigningkey c st sess key_size).1 ≠ 0 →
       (compute_smb3xsigningkey c st sess key_size).2 = List.replicate key_size 0) ∧
    ((compute_smb3xsigningkey c st sess key_size).1 = 0 →
       ((compute_smb3xsigningkey c st sess key_size).2).length = key_size ∧
       (compute_smb3xsigningkey c st sess key_size).2 =
         (c.hmacsha256 (sess.sess_key.take SMB2_NTLMV2_SESSKEY_SIZE)
           ([0, 0, 0, 1]
             ++ (if sess.dialect = SMB311_PROT_ID
                 then [83, 77, 66, 83, 105, 103, 110, 105, 110, 103, 75, 101, 121, 0]
                 else [83, 77, 66, 50, 65, 69, 83, 67, 77, 65, 67, 0])
             ++ [0]
             ++ (if sess.dialect = SMB311_PROT_ID
                 then sess.preauth_hash.take 64
                 else [83, 109, 98, 83, 105, 103, 110, 0])
             ++ [0, 0, 0, 128])).take key_size) := by
  have hks32 : key_size ≤ 32 := hks
  rcases compute_smb3xsigningkey_shape c st sess key_size with ⟨rc, hrc, heq⟩ | heq
  · constructor
    · intro _
      rw [heq]
    · intro h0
      rw [heq] at h0
      exact absurd h0 hrc
  · constructor
    · intro hc
      rw [heq] at hc
      exact absurd rfl hc
    · intro _
      rw [heq]
      refine ⟨?_, rfl⟩
      simp [List.length_take, hlen]
      omega

/-- C10 witness: when the context-update step fails, the key buffer is
all zeroes. -/
theorem smb3signingkey_all_or_nothing_witness :
    (compute_smb3xsigningkey cOne stBad sessOne 16).2 = List.replicate 16 0 :=
  (smb3signingkey_all_or_nothing cOne stBad sessOne 16 (by decide)
    (fun kk dd => by simp [cOne, SMB2_HMACSHA256_SIZE])).1 (by decide)

/-- C9: for every 64-byte running hash and message, the SHA-512 preauth
integrity update hashes the previous running hash followed by the raw
message bytes starting at the protocol-identifier field (byte offset 4)
for exactly the length declared in the network-byte-order length field
(the first four bytes of the PDU). -/
theorem preauth_integrity_hash_formula (c : Crypto) (preauth : List Nat) (buf : Nat → Nat) :
    calc_preauth_integrity_hash c none preauth SMB2_PREAUTH_INTEGRITY_SHA512 buf =
      .ok ((c.sha512 (preauth.take 64 ++ readBytes buf 4 (readBE32 buf 0))).take 64) := by
  simp [calc_preauth_integrity_hash]

/-- C8: the challenge target-info list is exactly one attribute per
type from NetBIOS computer name through DNS domain name - four
attributes, each carrying the UTF-16 server name of byte length len -
followed by the zero/zero terminator, and the recorded target-info
length is 4*(4+len) + 4. -/
theorem challenge_blob_target_info (c : Crypto) (sess : Sess) (serverName : String)
    (rand : List Nat)
    (hsmall : 4 * (4 + (c.strtoUTF16 serverName).length) + 4 < 65536) :
    (build_ntlmssp_challenge_blob c sess serverName rand).1.TargetInfoList =
      [⟨NTLMSSP_AV_NB_COMPUTER_NAME, (c.strtoUTF16 serverName).length, c.strtoUTF16 serverName⟩,
       ⟨NTLMSSP_AV_NB_DOMAIN_NAME, (c.strtoUTF16 serverName).length, c.strtoUTF16 serverName⟩,
       ⟨NTLMSSP_AV_DNS_COMPUTER_NAME, (c.strtoUTF16 serverName).length, c.strtoUTF16 serverName⟩,
       ⟨NTLMSSP_AV_DNS_DOMAIN_NAME, (c.strtoUTF16 serverName).length, c.strtoUTF16 serverName⟩,
       ⟨0, 0, []⟩] ∧
    (build_ntlmssp_challenge_blob c sess serverName rand).1.TargetInfoLen =
      4 * (4 + (c.strtoUTF16 serverName).length) + 4 := by
  have hL : (c.strtoUTF16 serverName).length % 65536 = (c.strtoUTF16 serverName).length :=
    Nat.mod_eq_of_lt (by omega)
  constructor
  · simp [build_ntlmssp_challenge_blob, tiLoop, NTLMSSP_AV_NB_COMPUTER_NAME,
      NTLMSSP_AV_NB_DOMAIN_NAME, NTLMSSP_AV_DNS_COMPUTER_NAME, NTLMSSP_AV_DNS_DOMAIN_NAME, hL]
  · simp [build_ntlmssp_challenge_blob, tiLoop, NTLMSSP_AV_NB_COMPUTER_NAME,
      NTLMSSP_AV_DNS_DOMAIN_NAME]
    omega

/-- C8 witness: for the server name "FSRV" (8 UTF-16 bytes) the list
has the four name attributes and the terminator, and the recorded
length is 4*(4+8) + 4 = 52. -/
theorem challenge_blob_target_info_witness :
    (build_ntlmssp_challenge_blob cOne sessOne "FSRV" randOne).1.TargetInfoList =
      [⟨NTLMSSP_AV_NB_COMPUTER_NAME, (cOne.strtoUTF16 "FSRV").length, cOne.strtoUTF16 "FSRV"⟩,
       ⟨NTLMSSP_AV_NB_DOMAIN_NAME, (cOne.strtoUTF16 "FSRV").length, cOne.strtoUTF16 "FSRV"⟩,
       ⟨NTLMSSP_AV_DNS_COMPUTER_NAME, (cOne.strtoUTF16 "FSRV").length, cOne.strtoUTF16 "FSRV"⟩,
       ⟨NTLMSSP_AV_DNS_DOMAIN_NAME, (cOne.strtoUTF16 "FSRV").length, cOne.strtoUTF16 "FSRV"⟩,
       ⟨0, 0, []⟩] ∧
    (build_ntlmssp_challenge_blob cOne sessOne "FSRV" randOne).1.TargetInfoLen =
      4 * (4 + (cOne.strtoUTF16 "FSRV").length) + 4 :=
  challenge_blob_target_info cOne sessOne "FSRV" randOne (by decide)
